import Mathlib

/-!
Verification of the UK Met Office site-specific forecast server
(UK_Met_Office_Site_Specific_Forecast_MCP.py).

The Python module is shallowly embedded as follows.

JSON documents and Python runtime values are modelled by `JVal`
(None, bool, int, float, str, list, dict with string keys).
Python floats are modelled by `PyFloat`: an exact rational for the
finite values, plus the special values inf, -inf and nan.  Exceptions
are modelled by `Except PyErr`: a function that can raise returns
`Except PyErr α`, and `.error e` means the Python code raises `e`
uncaught at that point.  The network call of `make_met_office_request`
is abstracted by `FetchOutcome`: a successful fetch carries the parsed
JSON body, while an HTTP status error or a transport exception carry
the message that the except handlers log.  `logging.error` calls are
modelled by returning the list of emitted log lines next to the
result string.

String formatting follows CPython semantics: `.1f` and `.4f` format
specifiers round half to even, `str` of a dict or list uses repr of
the elements, `str(KeyError(k))` is the repr of `k`, and
`str(IndexError(...))` is the exception message.
-/

set_option maxRecDepth 4000

/-! ## Rational helpers

`Rat.mul` and friends are irreducible, so arithmetic is defined through
`mkRat`, which the kernel evaluates. -/

def qmul (a b : ℚ) : ℚ := mkRat (a.num * b.num) (a.den * b.den)

def qsub (a b : ℚ) : ℚ := mkRat (a.num * (b.den : Int) - b.num * (a.den : Int)) (a.den * b.den)

def qinv (a : ℚ) : ℚ := mkRat (Int.sign a.num * (a.den : Int)) a.num.natAbs

def ratFloor (q : ℚ) : Int :=
  if 0 ≤ q.num then ((q.num.toNat / q.den : Nat) : Int)
  else -(((((-q.num).toNat + q.den - 1) / q.den : Nat) : Int))

/-- Truncation toward zero, the behaviour of Python `int()` on a float. -/
def ratTrunc (q : ℚ) : Int :=
  if 0 ≤ q.num then ((q.num.toNat / q.den : Nat) : Int)
  else -((((-q.num).toNat / q.den : Nat) : Int))

/-! ## String helpers

Core `String.splitOn` and `String.trim` are defined by well-founded
recursion on byte positions and do not evaluate in the kernel, so the
few string operations the source needs are defined structurally on
character lists. -/

def wsDrop (l : List Char) : List Char := l.dropWhile (fun c => c.isWhitespace)

/-- Python `str.strip()`: remove whitespace from both ends. -/
def pyStrip (l : List Char) : List Char := ((wsDrop l).reverse |> wsDrop).reverse

/-- Python `str.split(sep)` for a one-character separator. -/
def splitCharAux (c : Char) : List Char → List Char → List (List Char)
  | [], acc => [acc.reverse]
  | x :: xs, acc =>
    if x == c then acc.reverse :: splitCharAux c xs []
    else splitCharAux c xs (x :: acc)

def listIsPre : List Char → List Char → Bool
  | [], _ => true
  | _ :: _, [] => false
  | a :: as, b :: bs => a == b && listIsPre as bs

def containsAux (pat : List Char) : List Char → Bool
  | [] => listIsPre pat []
  | x :: xs => listIsPre pat (x :: xs) || containsAux pat xs

/-- Substring containment, used to state the output-content claims. -/
def strContains (s pat : String) : Bool := containsAux pat.data s.data

def digitsToNat (l : List Char) : Nat := l.foldl (fun acc c => acc * 10 + (c.toNat - 48)) 0

/-- Python `int(s)` on a string: optional surrounding whitespace, an
optional sign, then decimal digits; anything else raises ValueError. -/
def parseIntStr (s : String) : Option Int :=
  let t := pyStrip s.data
  let sd : Int × List Char :=
    match t with
    | '-' :: rest => (-1, rest)
    | '+' :: rest => (1, rest)
    | _ => (1, t)
  if !sd.2.isEmpty && sd.2.all Char.isDigit then some (sd.1 * (digitsToNat sd.2 : Int))
  else Option.none

def padZeros (s : String) (k : Nat) : String :=
  String.mk (List.replicate (k - s.length) '0') ++ s

/-- Nearest integer to `q` times ten to the `k`, ties to even: the
rounding CPython uses for the `f` format specifier. -/
def roundHalfEvenScaled (q : ℚ) (k : Nat) : Int :=
  let x : ℚ := qmul q (mkRat ((10 : Nat) ^ k : Nat) 1)
  let f : Int := ratFloor x
  let r : ℚ := qsub x (mkRat f 1)
  if r < mkRat 1 2 then f
  else if mkRat 1 2 < r then f + 1
  else if f % 2 = 0 then f else f + 1

/-- Python `format(x, ".kf")` for a finite value `x`. -/
def formatFixed (q : ℚ) (k : Nat) : String :=
  let n : Int := roundHalfEvenScaled q k
  let a : Nat := n.natAbs
  let p : Nat := (10 : Nat) ^ k
  let sign : String := if q < mkRat 0 1 then "-" else ""
  if k = 0 then sign ++ toString a
  else sign ++ toString (a / p) ++ "." ++ padZeros (toString (a % p)) k

/-! ## The Python value model -/

inductive PyFloat where
  | finite (q : ℚ)
  | inf
  | negInf
  | nan
deriving DecidableEq

inductive JVal where
  | none
  | bool (b : Bool)
  | int (n : Int)
  | float (f : PyFloat)
  | str (s : String)
  | list (xs : List JVal)
  | dict (kvs : List (String × JVal))

inductive PyErr where
  | keyError (msg : String)
  | indexError (msg : String)
  | typeError
  | valueError
  | overflowError
  | attributeError
deriving DecidableEq

deriving instance DecidableEq for Except

/-- Python float repr of special values and, for a finite value, the
shortest exact decimal (every float the formatters produce is decimal). -/
def floatRepr : PyFloat → String
  | .inf => "inf"
  | .negInf => "-inf"
  | .nan => "nan"
  | .finite q =>
    match (List.range 40).find? (fun k => (qmul q (mkRat ((10 : Nat) ^ k : Nat) 1)).den == 1) with
    | some k => formatFixed q (max k 1)
    | Option.none => toString q.num ++ "/" ++ toString q.den

mutual

/-- Python `repr`.  String escaping inside the quotes is not modelled;
no string the source reprs contains a quote. -/
def pyRepr : JVal → String
  | .none => "None"
  | .bool true => "True"
  | .bool false => "False"
  | .int n => toString n
  | .float f => floatRepr f
  | .str s => "\x27" ++ s ++ "\x27"
  | .list xs => "[" ++ pyReprList xs ++ "]"
  | .dict kvs => "\x7b" ++ pyReprDict kvs ++ "\x7d"

def pyReprList : List JVal → String
  | [] => ""
  | [x] => pyRepr x
  | x :: y :: xs => pyRepr x ++ ", " ++ pyReprList (y :: xs)

def pyReprDict : List (String × JVal) → String
  | [] => ""
  | [(k, v)] => "\x27" ++ k ++ "\x27: " ++ pyRepr v
  | (k, v) :: y :: xs => "\x27" ++ k ++ "\x27: " ++ pyRepr v ++ ", " ++ pyReprDict (y :: xs)

end

/-- Python `str`. -/
def pyStr : JVal → String
  | .none => "None"
  | .bool true => "True"
  | .bool false => "False"
  | .int n => toString n
  | .float f => floatRepr f
  | .str s => s
  | .list xs => pyRepr (.list xs)
  | .dict kvs => pyRepr (.dict kvs)

/-- The numeric view Python takes of a value: `isinstance(v, (int, float))`
succeeds exactly when this is `some`, and bools count as ints. -/
def pyToFloat : JVal → Option PyFloat
  | .bool b => some (.finite (if b then mkRat 1 1 else mkRat 0 1))
  | .int n => some (.finite (mkRat n 1))
  | .float f => some f
  | _ => Option.none

def pyFloatEq (a b : PyFloat) : Bool :=
  match a, b with
  | .finite p, .finite q => decide (p = q)
  | .inf, .inf => true
  | .negInf, .negInf => true
  | _, _ => false

/-- Python `==`.  Container equality is not exercised by the source,
whose only comparison is against the string literal "N/A". -/
def pyEq (a b : JVal) : Bool :=
  match pyToFloat a, pyToFloat b with
  | some fa, some fb => pyFloatEq fa fb
  | _, _ =>
    match a, b with
    | .str s, .str t => s == t
    | .none, .none => true
    | _, _ => false

def pyNe (a b : JVal) : Bool := !(pyEq a b)

/-- Python truthiness of a JSON value. -/
def jvalFalsy : JVal → Bool
  | .none => true
  | .bool b => !b
  | .int n => n == 0
  | .float f => pyFloatEq f (.finite (mkRat 0 1))
  | .str s => s.data.isEmpty
  | .list xs => xs.isEmpty
  | .dict kvs => kvs.isEmpty

/-- Python `int(code)` on the values `JVal` can hold.  Infinite floats
raise OverflowError, NaN raises ValueError, non-numeric strings raise
ValueError, and None, lists and dicts raise TypeError. -/
def pyInt : JVal → Except PyErr Int
  | .int n => .ok n
  | .bool b => .ok (if b then 1 else 0)
  | .float (.finite q) => .ok (ratTrunc q)
  | .float .inf => .error .overflowError
  | .float .negInf => .error .overflowError
  | .float .nan => .error .valueError
  | .str s =>
    match parseIntStr s with
    | some n => .ok n
    | Option.none => .error .valueError
  | .none => .error .typeError
  | .list _ => .error .typeError
  | .dict _ => .error .typeError

/-- Dict subscription `v[k]` with a string key. -/
def subscriptStr (v : JVal) (k : String) : Except PyErr JVal :=
  match v with
  | .dict kvs =>
    match kvs.find? (fun p => p.1 == k) with
    | some p => .ok p.2
    | Option.none => .error (.keyError ("\x27" ++ k ++ "\x27"))
  | _ => .error .typeError

/-- List subscription `v[i]` with a nonnegative index. -/
def subscriptNat (v : JVal) (i : Nat) : Except PyErr JVal :=
  match v with
  | .list xs =>
    match xs.get? i with
    | some x => .ok x
    | Option.none => .error (.indexError "list index out of range")
  | .str s =>
    match s.data.get? i with
    | some c => .ok (.str (String.mk [c]))
    | Option.none => .error (.indexError "string index out of range")
  | _ => .error .typeError

/-- Python `d.get(k, default)`; only ever called on dicts in the source. -/
def pget (v : JVal) (k : String) (dflt : JVal) : JVal :=
  match v with
  | .dict kvs =>
    match kvs.find? (fun p => p.1 == k) with
    | some p => p.2
    | Option.none => dflt
  | _ => dflt

/-- Python iteration `for x in v`: lists yield elements, strings yield
one-character strings, dicts yield their keys, the rest raise TypeError. -/
def pyIter (v : JVal) : Except PyErr (List JVal) :=
  match v with
  | .list xs => .ok xs
  | .str s => .ok (s.data.map (fun c => .str (String.mk [c])))
  | .dict kvs => .ok (kvs.map (fun p => .str p.1))
  | _ => .error .typeError

def pyFloatMul (f : PyFloat) (c : ℚ) : PyFloat :=
  match f with
  | .finite q => .finite (qmul q c)
  | .inf => if mkRat 0 1 < c then .inf else if c < mkRat 0 1 then .negInf else .nan
  | .negInf => if mkRat 0 1 < c then .negInf else if c < mkRat 0 1 then .inf else .nan
  | .nan => .nan

def pyFloatDiv (f : PyFloat) (c : ℚ) : PyFloat := pyFloatMul f (qinv c)

def formatFloatFixed (f : PyFloat) (k : Nat) : String :=
  match f with
  | .finite q => formatFixed q k
  | .inf => "inf"
  | .negInf => "-inf"
  | .nan => "nan"

/-- Applying a `.kf` format specifier to an arbitrary value, as the
location line of the hourly formatter does to the response coordinates. -/
def formatSpecF (v : JVal) (k : Nat) : Except PyErr String :=
  match v with
  | .bool b => .ok (formatFixed (if b then mkRat 1 1 else mkRat 0 1) k)
  | .int n => .ok (formatFixed (mkRat n 1) k)
  | .float f => .ok (formatFloatFixed f k)
  | .str _ => .error .valueError
  | _ => .error .typeError

/-- Python `s.split("T")` as used on `period["time"]`; on a non-string
the attribute access raises. -/
def pySplitT (v : JVal) : Except PyErr (List String) :=
  match v with
  | .str s => .ok ((splitCharAux 'T' s.data []).map String.mk)
  | _ => .error .attributeError

/-! ## The embedded module -/

inductive PyKey where
  | i (n : Int)
  | s (t : String)
deriving DecidableEq

def WEATHER_CODES : List (PyKey × String) := [
  (.s "NA", "Not available"),
  (.i 0, "Clear night"),
  (.i 1, "Sunny day"),
  (.i 2, "Partly cloudy (night)"),
  (.i 3, "Partly cloudy (day)"),
  (.i 4, "Not used"),
  (.i 5, "Mist"),
  (.i 6, "Fog"),
  (.i 7, "Cloudy"),
  (.i 8, "Overcast"),
  (.i 9, "Light rain shower (night)"),
  (.i 10, "Light rain shower (day)"),
  (.i 11, "Drizzle"),
  (.i 12, "Light rain"),
  (.i 13, "Heavy rain shower (night)"),
  (.i 14, "Heavy rain shower (day)"),
  (.i 15, "Heavy rain"),
  (.i 16, "Sleet shower (night)"),
  (.i 17, "Sleet shower (day)"),
  (.i 18, "Sleet"),
  (.i 19, "Hail shower (night)"),
  (.i 20, "Hail shower (day)"),
  (.i 21, "Hail"),
  (.i 22, "Light snow shower (night)"),
  (.i 23, "Light snow shower (day)"),
  (.i 24, "Light snow"),
  (.i 25, "Heavy snow shower (night)"),
  (.i 26, "Heavy snow shower (day)"),
  (.i 27, "Heavy snow"),
  (.i 28, "Thunder shower (night)"),
  (.i 29, "Thunder shower (day)"),
  (.i 30, "Thunder")]

/-- `WEATHER_CODES.get(k)`. -/
def weatherCodesGet (k : PyKey) : Option String :=
  (WEATHER_CODES.find? (fun p => decide (p.1 = k))).map Prod.snd

/-- `get_weather_description`: try `int(code)` first, fall back to a
string lookup when the coercion raises ValueError or TypeError. -/
def get_weather_description (code : JVal) : Except PyErr String :=
  match pyInt code with
  | .ok n => .ok ((weatherCodesGet (.i n)).getD ("Unknown code: " ++ pyStr code))
  | .error e =>
    if e = PyErr.valueError ∨ e = PyErr.typeError then
      .ok ((weatherCodesGet (.s (pyStr code))).getD ("Unknown code: " ++ pyStr code))
    else .error e

/-- Outcome of the single upstream HTTP GET: a parsed JSON body, a
non-2xx status (raise_for_status raises HTTPStatusError), or any other
transport exception. -/
inductive FetchOutcome where
  | success (body : JVal)
  | httpStatusError (status : Nat) (text : String)
  | transportError (msg : String)

/-- `make_met_office_request`: the body on success, None on any error. -/
def make_met_office_request : FetchOutcome → Option JVal
  | .success j => some j
  | .httpStatusError _ _ => Option.none
  | .transportError _ => Option.none

/-- The log lines the except handlers of `make_met_office_request` emit. -/
def fetch_log : FetchOutcome → List String
  | .success _ => []
  | .httpStatusError status text => ["HTTP Error: " ++ toString status ++ " - " ++ text]
  | .transportError msg => ["An error occurred: " ++ msg]

/-- Hourly conversion `wind_speed * 2.237` guarded by `!= "N/A"`. -/
def wind_speed_mph (wind_speed : JVal) : Except PyErr String :=
  if pyNe wind_speed (.str "N/A") then
    match pyToFloat wind_speed with
    | some f => .ok (formatFloatFixed (pyFloatMul f (mkRat 2237 1000)) 1)
    | Option.none => .error .typeError
  else .ok "N/A"

/-- Hourly conversion `pressure / 100` guarded by `!= "N/A"`. -/
def pressure_mb (pressure : JVal) : Except PyErr String :=
  if pyNe pressure (.str "N/A") then
    match pyToFloat pressure with
    | some f => .ok (formatFloatFixed (pyFloatDiv f (mkRat 100 1)) 1)
    | Option.none => .error .typeError
  else .ok "N/A"

/-- Hourly conversion `visibility / 1000` guarded by `!= "N/A"`. -/
def visibility_km (visibility : JVal) : Except PyErr String :=
  if pyNe visibility (.str "N/A") then
    match pyToFloat visibility with
    | some f => .ok (formatFloatFixed (pyFloatDiv f (mkRat 1000 1)) 1)
    | Option.none => .error .typeError
  else .ok "N/A"

/-- One iteration of the hourly formatting loop. -/
def hourly_period_block (period : JVal) : Except PyErr String := do
  let time ← subscriptStr period "time"
  let temp := pget period "screenTemperature" (.str "N/A")
  let feels_like := pget period "feelsLikeTemperature" (.str "N/A")
  let humidity := pget period "screenRelativeHumidity" (.str "N/A")
  let wind_speed := pget period "windSpeed10m" (.str "N/A")
  let wind_direction := pget period "windDirectionFrom10m" (.str "N/A")
  let weather_code := pget period "significantWeatherCode" (.str "NA")
  let precipitation_rate := pget period "precipitationRate" (.str "N/A")
  let precipitation_prob := pget period "probOfPrecipitation" (.str "N/A")
  let visibility := pget period "visibility" (.str "N/A")
  let uv_index := pget period "uvIndex" (.str "N/A")
  let pressure := pget period "mslp" (.str "N/A")
  let weather_desc ← get_weather_description weather_code
  let ws ← wind_speed_mph wind_speed
  let pr ← pressure_mb pressure
  let vis ← visibility_km visibility
  pure ("\n---\nTime: " ++ pyStr time ++
    "\nTemperature: " ++ pyStr temp ++ "°C (feels like " ++ pyStr feels_like ++ "°C)" ++
    "\nWeather: " ++ weather_desc ++
    "\nWind: " ++ ws ++ " mph from " ++ pyStr wind_direction ++ "°" ++
    "\nHumidity: " ++ pyStr humidity ++ "%" ++
    "\nPrecipitation: " ++ pyStr precipitation_rate ++ " mm/h (" ++ pyStr precipitation_prob ++ "% chance)" ++
    "\nPressure: " ++ pr ++ " mb" ++
    "\nVisibility: " ++ vis ++ " km" ++
    "\nUV Index: " ++ pyStr uv_index ++ "\n")

/-- The try block of `get_hourly_forecast`. -/
def hourly_body (data : JVal) : Except PyErr String := do
  let features ← subscriptStr data "features"
  let f0 ← subscriptNat features 0
  let props ← subscriptStr f0 "properties"
  let time_series ← subscriptStr props "timeSeries"
  let geometry ← subscriptStr f0 "geometry"
  let coordinates ← subscriptStr geometry "coordinates"
  let c1 ← subscriptNat coordinates 1
  let c0 ← subscriptNat coordinates 0
  let c1s ← formatSpecF c1 4
  let c0s ← formatSpecF c0 4
  let location_info := "Location: " ++ c1s ++ "°N, " ++ c0s ++ "°E"
  let periods ← pyIter time_series
  let blocks ← periods.mapM hourly_period_block
  pure (String.intercalate "\n" (("Hourly forecast for " ++ location_info ++ ":") :: blocks))

/-- `get_hourly_forecast`, with the network call abstracted by its
outcome.  The result pairs the returned string with the log lines; an
`Except.error` is an exception the function raises. -/
def get_hourly_forecast (latitude longitude : ℚ) (outcome : FetchOutcome) :
    Except PyErr (String × List String) :=
  match make_met_office_request outcome with
  | Option.none => .ok ("Unable to fetch forecast data for this location.", fetch_log outcome)
  | some data =>
    if jvalFalsy data then
      .ok ("Unable to fetch forecast data for this location.", fetch_log outcome)
    else
      match hourly_body data with
      | .ok s => .ok (s, fetch_log outcome)
      | .error (.keyError m) =>
        .ok ("Failed to parse the forecast data. Error: " ++ m, fetch_log outcome)
      | .error (.indexError m) =>
        .ok ("Failed to parse the forecast data. Error: " ++ m, fetch_log outcome)
      | .error e => .error e

/-- The `_format` helper of `get_daily_forecast`: numeric values are
scaled and rendered to one decimal place, everything else is "N/A". -/
def _format (value : JVal) (unit : String) (factor : ℚ) : String :=
  match pyToFloat value with
  | some f => formatFloatFixed (pyFloatMul f factor) 1 ++ unit
  | Option.none => "N/A"

/-- One iteration of the daily formatting loop. -/
def daily_period_block (period : JVal) : Except PyErr String := do
  let timeV ← subscriptStr period "time"
  let parts ← pySplitT timeV
  let date ←
    match parts.get? 0 with
    | some d => Except.ok d
    | Option.none => Except.error (.indexError "list index out of range")
  let day_max_temp := _format (pget period "dayMaxScreenTemperature" .none) "°C" (mkRat 1 1)
  let night_min_temp := _format (pget period "nightMinScreenTemperature" .none) "°C" (mkRat 1 1)
  let day_max_feels_like := _format (pget period "dayMaxFeelsLikeTemp" .none) "°C" (mkRat 1 1)
  let night_min_feels_like := _format (pget period "nightMinFeelsLikeTemp" .none) "°C" (mkRat 1 1)
  let day_precip_prob := _format (pget period "dayProbabilityOfPrecipitation" .none) "%" (mkRat 1 1)
  let night_precip_prob := _format (pget period "nightProbabilityOfPrecipitation" .none) "%" (mkRat 1 1)
  let max_uv := _format (pget period "maxUvIndex" .none) "" (mkRat 1 1)
  let midday_humidity := _format (pget period "middayRelativeHumidity" .none) "%" (mkRat 1 1)
  let midday_visibility_km := _format (pget period "middayVisibility" .none) " km" (mkRat 1 1000)
  let midday_mslp_hpa := _format (pget period "middayMslp" .none) " hPa" (mkRat 1 100)
  let day_wind_speed_mph := _format (pget period "midday10MWindSpeed" .none) " mph" (mkRat 223694 100000)
  let day_weather_desc ← get_weather_description (pget period "daySignificantWeatherCode" (.str "NA"))
  let night_weather_desc ← get_weather_description (pget period "nightSignificantWeatherCode" (.str "NA"))
  pure (String.mk (pyStrip ("\n---\nDate: " ++ date ++
    "\nMax Temp: " ++ day_max_temp ++
    "\nMin Temp: " ++ night_min_temp ++
    "\nFeels Like Max Temp: " ++ day_max_feels_like ++
    "\nFeels Like Min Temp (Night): " ++ night_min_feels_like ++
    "\nDay Precipitation Probability: " ++ day_precip_prob ++
    "\nNight Precipitation Probability: " ++ night_precip_prob ++
    "\nMax UV Index: " ++ max_uv ++
    "\nMidday Relative Humidity: " ++ midday_humidity ++
    "\nMidday Visibility: " ++ midday_visibility_km ++
    "\nMidday Pressure (MSL): " ++ midday_mslp_hpa ++
    "\nWind Speed (10m): " ++ day_wind_speed_mph ++
    "\nWeather: " ++ day_weather_desc ++ " (Day), " ++ night_weather_desc ++ " (Night)").data))

/-- The try block of `get_daily_forecast`. -/
def daily_body (data : JVal) : Except PyErr String := do
  let features ← subscriptStr data "features"
  let f0 ← subscriptNat features 0
  let props ← subscriptStr f0 "properties"
  let time_series ← subscriptStr props "timeSeries"
  let location ← subscriptStr props "location"
  let location_name ← subscriptStr location "name"
  let periods ← pyIter time_series
  let blocks ← periods.mapM daily_period_block
  pure (String.intercalate "\n" (("Daily forecast for " ++ pyStr location_name ++ ":") :: blocks))

/-- The log line the daily except handler emits. -/
def daily_parse_log (m : String) (data : JVal) : String :=
  "Failed to parse forecast data: " ++ m ++ ". Raw data: " ++ pyRepr data

/-- `get_daily_forecast`, with the network call abstracted by its
outcome.  Unlike the hourly variant, its parse-failure handler logs
and returns a fixed message without the error detail. -/
def get_daily_forecast (latitude longitude : ℚ) (outcome : FetchOutcome) :
    Except PyErr (String × List String) :=
  match make_met_office_request outcome with
  | Option.none => .ok ("Unable to fetch forecast data for this location.", fetch_log outcome)
  | some data =>
    if jvalFalsy data then
      .ok ("Unable to fetch forecast data for this location.", fetch_log outcome)
    else
      match daily_body data with
      | .ok s => .ok (s, fetch_log outcome)
      | .error (.keyError m) =>
        .ok ("Failed to parse the forecast data. The structure might have changed or the location is invalid.",
          fetch_log outcome ++ [daily_parse_log m data])
      | .error (.indexError m) =>
        .ok ("Failed to parse the forecast data. The structure might have changed or the location is invalid.",
          fetch_log outcome ++ [daily_parse_log m data])
      | .error e => .error e

/-! ## Concrete documents used by the claims -/

/-- Well-formed hourly response with one period:
windSpeed10m=10, mslp=100000, visibility=5000. -/
def hourlyDoc : JVal := .dict [("features", .list [.dict [
  ("geometry", .dict [("coordinates",
    .list [.float (.finite (mkRat (-1) 10)), .float (.finite (mkRat 515 10))])]),
  ("properties", .dict [("timeSeries", .list [.dict [
    ("time", .str "2024-01-01T00:00Z"),
    ("windSpeed10m", .int 10),
    ("mslp", .int 100000),
    ("visibility", .int 5000)]])])]])]

/-- Hourly response whose period has a present, non-numeric wind speed. -/
def hourlyBadDoc : JVal := .dict [("features", .list [.dict [
  ("geometry", .dict [("coordinates",
    .list [.float (.finite (mkRat (-1) 10)), .float (.finite (mkRat 515 10))])]),
  ("properties", .dict [("timeSeries", .list [.dict [
    ("time", .str "2024-01-01T00:00Z"),
    ("windSpeed10m", .str "fast")]])])]])]

/-- Hourly response with the three unit-converted fields missing. -/
def hourlyMissingDoc : JVal := .dict [("features", .list [.dict [
  ("geometry", .dict [("coordinates",
    .list [.float (.finite (mkRat (-1) 10)), .float (.finite (mkRat 515 10))])]),
  ("properties", .dict [("timeSeries", .list [.dict [
    ("time", .str "2024-01-01T00:00Z")]])])]])]

/-- Well-formed daily response with one period: dayMaxScreenTemperature=20.5. -/
def dailyDoc : JVal := .dict [("features", .list [.dict [
  ("properties", .dict [
    ("location", .dict [("name", .str "London")]),
    ("timeSeries", .list [.dict [
      ("time", .str "2024-01-01T00:00Z"),
      ("dayMaxScreenTemperature", .float (.finite (mkRat 41 2)))]])])]])]

/-- Truthy document on which both try blocks fail with IndexError. -/
def parseBadDoc : JVal := .dict [("features", .list [])]

/-! ## Shared lemmas -/

/-- Every integer code up to 30 is present in the table. -/
theorem weather_table_total :
    ∀ m : Nat, m ≤ 30 → weatherCodesGet (.i (m : Int)) ≠ Option.none := by decide

/-! ## The claims -/

/-- Claim C1, counterexample: the hourly period field `windSpeed10m` holds
the non-numeric value "fast"; instead of rendering "N/A", the conversion
`wind_speed * 2.237` raises an uncaught TypeError, so `get_hourly_forecast`
raises rather than returning a string. -/
theorem C1_counterexample :
    pyToFloat (.str "fast") = Option.none ∧
    get_hourly_forecast (mkRat 515 10) (mkRat (-1) 10) (.success hourlyBadDoc) =
      .error .typeError := by decide

/-- Claim C1, amended: in the daily formatter `_format` renders every
non-numeric value as "N/A" and never raises; in the hourly formatter the
three unit-converted fields render "N/A" exactly when the value is the
string "N/A" (in particular the missing-key default), while any other
non-numeric string raises an uncaught TypeError. -/
theorem C1_theorem :
    (∀ (v : JVal) (u : String) (c : ℚ), pyToFloat v = Option.none → _format v u c = "N/A") ∧
    wind_speed_mph (.str "N/A") = .ok "N/A" ∧
    pressure_mb (.str "N/A") = .ok "N/A" ∧
    visibility_km (.str "N/A") = .ok "N/A" ∧
    (∀ s : String, s ≠ "N/A" →
      wind_speed_mph (.str s) = .error .typeError ∧
      pressure_mb (.str s) = .error .typeError ∧
      visibility_km (.str s) = .error .typeError) ∧
    get_hourly_forecast 0 0 (.success hourlyMissingDoc) =
      .ok ("Hourly forecast for Location: 51.5000°N, -0.1000°E:\n" ++
        "\n---\nTime: 2024-01-01T00:00Z\nTemperature: N/A°C (feels like N/A°C)" ++
        "\nWeather: Not available\nWind: N/A mph from N/A°\nHumidity: N/A%" ++
        "\nPrecipitation: N/A mm/h (N/A% chance)\nPressure: N/A mb" ++
        "\nVisibility: N/A km\nUV Index: N/A\n", []) := by
  refine ⟨?_, by decide, by decide, by decide, ?_, by decide⟩
  · intro v u c h
    unfold _format
    rw [h]
  · intro s hs
    have hb : (s == "N/A") = false := beq_eq_false_iff_ne.mpr hs
    refine ⟨?_, ?_, ?_⟩
    · unfold wind_speed_mph
      simp [pyNe, pyEq, pyToFloat, hb]
    · unfold pressure_mb
      simp [pyNe, pyEq, pyToFloat, hb]
    · unfold visibility_km
      simp [pyNe, pyEq, pyToFloat, hb]

/-- Claim C1, witness: the amended theorem applied to the non-numeric
value "oops" for `_format` and to the hourly wind field "fast". -/
theorem C1_witness :
    _format (.str "oops") "°C" 1 = "N/A" ∧
    wind_speed_mph (.str "fast") = .error .typeError :=
  ⟨C1_theorem.1 (.str "oops") "°C" 1 rfl, (C1_theorem.2.2.2.2.1 "fast" (by decide)).1⟩

/-- Claim C2, counterexample: the string "7" is neither an integer code
nor "NA", yet the resolver returns "Cloudy", not "Unknown code: 7",
because integer coercion succeeds on it. -/
theorem C2_counterexample :
    get_weather_description (.str "7") = .ok "Cloudy" ∧
    get_weather_description (.str "7") ≠ .ok "Unknown code: 7" := by decide

/-- Claim C2, amended: every integer code 0 to 30 resolves to its table
description and "NA" resolves to "Not available"; any other value
resolves to "Unknown code: value" only when its integer coercion does
not land in the table (coercion succeeding outside 0 to 30, or failing
with ValueError or TypeError on a value whose string form is not a
table key). -/
theorem C2_theorem :
    (∀ m : Nat, m ≤ 30 →
      weatherCodesGet (.i (m : Int)) ≠ Option.none ∧
      get_weather_description (.int (m : Int)) = .ok ((weatherCodesGet (.i (m : Int))).getD "")) ∧
    get_weather_description (.str "NA") = .ok "Not available" ∧
    (∀ (v : JVal) (n : Int), pyInt v = .ok n → weatherCodesGet (.i n) = Option.none →
      get_weather_description v = .ok ("Unknown code: " ++ pyStr v)) ∧
    (∀ (v : JVal) (e : PyErr), pyInt v = .error e → (e = .valueError ∨ e = .typeError) →
      weatherCodesGet (.s (pyStr v)) = Option.none →
      get_weather_description v = .ok ("Unknown code: " ++ pyStr v)) := by
  refine ⟨by decide, by decide, ?_, ?_⟩
  · intro v n h hl
    unfold get_weather_description
    rw [h]
    show Except.ok ((weatherCodesGet (.i n)).getD ("Unknown code: " ++ pyStr v)) =
      Except.ok ("Unknown code: " ++ pyStr v)
    simp [hl]
  · intro v e h he hl
    unfold get_weather_description
    rw [h]
    simp only [if_pos he]
    simp [hl]

/-- Claim C2, witness: the amended theorem applied at code 7, at "NA",
at the out-of-table integer 31 and at the non-numeric string "hello". -/
theorem C2_witness :
    get_weather_description (.int 7) = .ok "Cloudy" ∧
    get_weather_description (.str "NA") = .ok "Not available" ∧
    get_weather_description (.int 31) = .ok "Unknown code: 31" ∧
    get_weather_description (.str "hello") = .ok "Unknown code: hello" :=
  ⟨(C2_theorem.1 7 (by decide)).2.trans (by decide),
   C2_theorem.2.1,
   C2_theorem.2.2.1 (.int 31) 31 rfl (by decide),
   C2_theorem.2.2.2 (.str "hello") .valueError (by decide) (Or.inl rfl) (by decide)⟩

/-- Claim C3, counterexample: on the truthy document with an empty
feature list, both operations catch the IndexError, but the hourly
operation returns with an empty log (no logging call in its handler)
while only the daily operation logs the failure; the hourly message
also embeds the error detail rather than being generic. -/
theorem C3_counterexample :
    get_hourly_forecast 0 0 (.success parseBadDoc) =
      .ok ("Failed to parse the forecast data. Error: list index out of range", []) ∧
    get_daily_forecast 0 0 (.success parseBadDoc) =
      .ok ("Failed to parse the forecast data. The structure might have changed or the location is invalid.",
        ["Failed to parse forecast data: list index out of range. Raw data: \x7b\x27features\x27: []\x7d"]) := by
  decide

/-- Claim C3, amended: a missing key or index during parsing is caught
in both operations and a failed-to-parse string is returned; the daily
operation logs the failure, but the hourly operation logs nothing and
embeds the error detail in the returned message. -/
theorem C3_theorem (latitude longitude : ℚ) (d : JVal) (ht : jvalFalsy d = false) :
    (∀ m, hourly_body d = .error (.keyError m) →
      get_hourly_forecast latitude longitude (.success d) =
        .ok ("Failed to parse the forecast data. Error: " ++ m, [])) ∧
    (∀ m, hourly_body d = .error (.indexError m) →
      get_hourly_forecast latitude longitude (.success d) =
        .ok ("Failed to parse the forecast data. Error: " ++ m, [])) ∧
    (∀ m, daily_body d = .error (.keyError m) →
      get_daily_forecast latitude longitude (.success d) =
        .ok ("Failed to parse the forecast data. The structure might have changed or the location is invalid.",
          [daily_parse_log m d])) ∧
    (∀ m, daily_body d = .error (.indexError m) →
      get_daily_forecast latitude longitude (.success d) =
        .ok ("Failed to parse the forecast data. The structure might have changed or the location is invalid.",
          [daily_parse_log m d])) := by
  refine ⟨?_, ?_, ?_, ?_⟩ <;> intro m h
  · unfold get_hourly_forecast
    simp [make_met_office_request, fetch_log, ht, h]
  · unfold get_hourly_forecast
    simp [make_met_office_request, fetch_log, ht, h]
  · unfold get_daily_forecast
    simp [make_met_office_request, fetch_log, ht, h]
  · unfold get_daily_forecast
    simp [make_met_office_request, fetch_log, ht, h]

/-- Claim C3, witness: the amended theorem applied to the document with
an empty feature list, whose parse fails with an IndexError. -/
theorem C3_witness :
    get_hourly_forecast (mkRat 1 2) (mkRat 1 2) (.success parseBadDoc) =
      .ok ("Failed to parse the forecast data. Error: " ++ "list index out of range", []) :=
  (C3_theorem (mkRat 1 2) (mkRat 1 2) parseBadDoc rfl).2.1 "list index out of range" (by decide)

/-- Claim C4: for every latitude and longitude, when the upstream call
raises a transport exception or returns a non-2xx status, both
operations return exactly the fixed unable-to-fetch string and do not
raise. -/
theorem C4_theorem (latitude longitude : ℚ) (msg text : String) (status : Nat) :
    get_hourly_forecast latitude longitude (.transportError msg) =
      .ok ("Unable to fetch forecast data for this location.", ["An error occurred: " ++ msg]) ∧
    get_daily_forecast latitude longitude (.transportError msg) =
      .ok ("Unable to fetch forecast data for this location.", ["An error occurred: " ++ msg]) ∧
    get_hourly_forecast latitude longitude (.httpStatusError status text) =
      .ok ("Unable to fetch forecast data for this location.", ["HTTP Error: " ++ toString status ++ " - " ++ text]) ∧
    get_daily_forecast latitude longitude (.httpStatusError status text) =
      .ok ("Unable to fetch forecast data for this location.", ["HTTP Error: " ++ toString status ++ " - " ++ text]) :=
  ⟨rfl, rfl, rfl, rfl⟩

/-- Claim C5: on the well-formed hourly response with windSpeed10m=10,
mslp=100000 and visibility=5000, the returned text contains "22.4 mph",
"1000.0 mb" and "5.0 km". -/
theorem C5_theorem :
    get_hourly_forecast (mkRat 515 10) (mkRat (-1) 10) (.success hourlyDoc) =
      .ok ("Hourly forecast for Location: 51.5000°N, -0.1000°E:\n" ++
        "\n---\nTime: 2024-01-01T00:00Z\nTemperature: N/A°C (feels like N/A°C)" ++
        "\nWeather: Not available\nWind: 22.4 mph from N/A°\nHumidity: N/A%" ++
        "\nPrecipitation: N/A mm/h (N/A% chance)\nPressure: 1000.0 mb" ++
        "\nVisibility: 5.0 km\nUV Index: N/A\n", []) ∧
    strContains ("Wind: 22.4 mph from N/A°") "22.4 mph" = true ∧
    strContains ("Pressure: 1000.0 mb") "1000.0 mb" = true ∧
    strContains ("Visibility: 5.0 km") "5.0 km" = true := by decide

/-- Claim C6: the resolver maps the integer 7 and the string "7" to the
same description "Cloudy"; whenever integer coercion succeeds the
result comes from the integer lookup, and only when it fails with
ValueError or TypeError is the string lookup consulted. -/
theorem C6_theorem :
    get_weather_description (.int 7) = .ok "Cloudy" ∧
    get_weather_description (.str "7") = .ok "Cloudy" ∧
    (∀ (v : JVal) (n : Int), pyInt v = .ok n →
      get_weather_description v = .ok ((weatherCodesGet (.i n)).getD ("Unknown code: " ++ pyStr v))) ∧
    (∀ (v : JVal) (e : PyErr), pyInt v = .error e → (e = .valueError ∨ e = .typeError) →
      get_weather_description v = .ok ((weatherCodesGet (.s (pyStr v))).getD ("Unknown code: " ++ pyStr v))) := by
  refine ⟨by decide, by decide, ?_, ?_⟩
  · intro v n h
    unfold get_weather_description
    rw [h]
  · intro v e h he
    unfold get_weather_description
    rw [h]
    simp only [if_pos he]

/-- Claim C6, witness: the mechanism conjuncts applied at the integer 8
(coercion succeeds) and at the string "NA" (coercion fails). -/
theorem C6_witness :
    get_weather_description (.int 8) = .ok "Overcast" ∧
    get_weather_description (.str "NA") = .ok "Not available" :=
  ⟨(C6_theorem.2.2.1 (.int 8) 8 rfl).trans (by decide),
   (C6_theorem.2.2.2 (.str "NA") .valueError (by decide) (Or.inl rfl)).trans (by decide)⟩

/-- Claim C7: on the well-formed daily response whose period has
dayMaxScreenTemperature=20.5, the returned text contains the substring
"Max Temp: 20.5°C". -/
theorem C7_theorem :
    get_daily_forecast (mkRat 515 10) (mkRat (-1) 10) (.success dailyDoc) =
      .ok ("Daily forecast for London:\n" ++
        "---\nDate: 2024-01-01\nMax Temp: 20.5°C\nMin Temp: N/A" ++
        "\nFeels Like Max Temp: N/A\nFeels Like Min Temp (Night): N/A" ++
        "\nDay Precipitation Probability: N/A\nNight Precipitation Probability: N/A" ++
        "\nMax UV Index: N/A\nMidday Relative Humidity: N/A\nMidday Visibility: N/A" ++
        "\nMidday Pressure (MSL): N/A\nWind Speed (10m): N/A" ++
        "\nWeather: Not available (Day), Not available (Night)", []) ∧
    strContains ("Date: 2024-01-01\nMax Temp: 20.5°C\nMin Temp: N/A") "Max Temp: 20.5°C" = true := by
  decide

/-- Claim C8: a successful fetch whose body is the falsy document (the
empty object) makes both operations return the transport-failure
string, not the parse-failure string: the truthiness check cannot tell
an empty successful response from a failed fetch. -/
theorem C8_theorem :
    get_hourly_forecast 0 0 (.success (.dict [])) =
      .ok ("Unable to fetch forecast data for this location.", []) ∧
    get_daily_forecast 0 0 (.success (.dict [])) =
      .ok ("Unable to fetch forecast data for this location.", []) ∧
    ("Unable to fetch forecast data for this location." ≠
      "Failed to parse the forecast data. The structure might have changed or the location is invalid.") := by
  decide

/-- Claim C9, counterexample: the resolver raises on the float values
inf and -inf, because `int()` raises OverflowError there and the
handler catches only ValueError and TypeError. -/
theorem C9_counterexample :
    get_weather_description (.float .inf) = .error .overflowError ∧
    get_weather_description (.float .negInf) = .error .overflowError := by decide

/-- Claim C9, amended: the resolver returns a string and never raises
on every int, every finite float, NaN, every string and None; but an
infinite float raises an uncaught OverflowError. -/
theorem C9_theorem :
    (∀ n : Int, ∃ s, get_weather_description (.int n) = .ok s) ∧
    (∀ q : ℚ, ∃ s, get_weather_description (.float (.finite q)) = .ok s) ∧
    (∃ s, get_weather_description (.float .nan) = .ok s) ∧
    (∀ t : String, ∃ s, get_weather_description (.str t) = .ok s) ∧
    (∃ s, get_weather_description JVal.none = .ok s) ∧
    get_weather_description (.float .inf) = .error .overflowError := by
  refine ⟨fun n => ⟨_, rfl⟩, fun q => ⟨_, rfl⟩, ⟨_, rfl⟩, ?_, ⟨_, rfl⟩, by decide⟩
  intro t
  unfold get_weather_description pyInt
  cases h : parseIntStr t with
  | none => simp only [h]; exact ⟨_, rfl⟩
  | some n => simp only [h]; exact ⟨_, rfl⟩

/-- Claim C10: a nonnegative non-integral float whose truncation lands
in the code table resolves to the description of the truncated
integer, identically to the integer input, never to an unknown-code
string. -/
theorem C10_theorem (q : ℚ) (h0 : 0 ≤ q) (hden : q.den ≠ 1) (h30 : ratTrunc q ≤ 30) :
    weatherCodesGet (.i (ratTrunc q)) ≠ Option.none ∧
    get_weather_description (.float (.finite q)) =
      .ok ((weatherCodesGet (.i (ratTrunc q))).getD ("Unknown code: " ++ pyStr (.float (.finite q)))) ∧
    get_weather_description (.float (.finite q)) = get_weather_description (.int (ratTrunc q)) := by
  have hnum : 0 ≤ q.num := Rat.num_nonneg.mpr h0
  have hn0 : 0 ≤ ratTrunc q := by
    unfold ratTrunc
    rw [if_pos hnum]
    exact Int.ofNat_nonneg _
  have hsome : weatherCodesGet (.i (ratTrunc q)) ≠ Option.none := by
    have h2 := weather_table_total (ratTrunc q).toNat (Int.toNat_le.mpr h30)
    rw [Int.toNat_of_nonneg hn0] at h2
    exact h2
  refine ⟨hsome, rfl, ?_⟩
  obtain ⟨s, hs⟩ := Option.ne_none_iff_exists.mp hsome
  show Except.ok ((weatherCodesGet (.i (ratTrunc q))).getD ("Unknown code: " ++ pyStr (.float (.finite q)))) =
    Except.ok ((weatherCodesGet (.i (ratTrunc q))).getD ("Unknown code: " ++ pyStr (.int (ratTrunc q))))
  rw [← hs]
  rfl

/-- Claim C10, witness: the float 7.9 truncates to 7 and resolves to
"Cloudy", not to "Overcast" and not to an unknown-code string. -/
theorem C10_witness :
    get_weather_description (.float (.finite (mkRat 79 10))) = .ok "Cloudy" ∧
    "Cloudy" ≠ "Unknown code: 7.9" ∧ "Cloudy" ≠ "Overcast" :=
  ⟨(C10_theorem (mkRat 79 10) (by decide) (by decide) (by decide)).2.1.trans (by decide),
   by decide, by decide⟩
